import Mathlib

/-!
# Verification of the btc-cycle-analysis polling / derived-metrics pipeline

Shallow embedding, in Lean 4, of the numeric and state-manipulating kernel of
the repository's JavaScript sources:

* `src/script.js`            — dashboard variant with `calculateFromATH`,
                               `calculateRiskScore`, `getSentimentInterpretation`
                               and the Layer-7 fear/greed label table;
* `src/script-pro.js`        — the retrying `fetchJSON` engine (`CONFIG.RETRY_ATTEMPTS`);
* `src/realtime-data-module-comprehensive.js`
                             — the cached fetch layer (`fetchWithCache`, `validateData`)
                               and the metrics engine (`calculateDerivedMetrics`,
                               `calculateComponentScores`, `detectRegimeHMM`,
                               `calculateCompositeScore`) over the `realtimeData` state;
* `src/unnamed/part_001`     — the fixed-weight `calculateCompositeScore` combination step.

JavaScript numbers are modelled as exact rationals (`ℚ`); `null`/`undefined`
becomes `Option`; JS truthiness on numbers (`!x`, `x || d`) is modelled
explicitly (`0` is falsy).  `Math.random()` calls are modelled as explicit
draw arguments, one per call site, in source order, so that the otherwise
effectful functions become pure functions of state and draws.
-/

/-! ## JavaScript numeric primitives -/

/-- `Math.round`: round half toward +∞ (`Math.round(-0.5) = 0`, `Math.round(0.5) = 1`). -/
def jsRound (x : ℚ) : ℚ := ((⌊x + 1/2⌋ : ℤ) : ℚ)

/-- `Number.prototype.toFixed(digits)` kept as a rational: round `x` to
`digits` decimal places, ties toward +∞ (ECMA-262 picks the larger candidate). -/
def jsToFixed (digits : ℕ) (x : ℚ) : ℚ := ((⌊x * 10 ^ digits + 1/2⌋ : ℤ) : ℚ) / 10 ^ digits

/-- JS truthiness of a nullable number: `null`/`undefined` and `0` are falsy. -/
def jsTruthy : Option ℚ → Bool
  | none => false
  | some x => x != 0

/-- JS `v || d` on a nullable number: yields `d` when `v` is `null` or `0`. -/
def jsOr (v : Option ℚ) (d : ℚ) : ℚ :=
  match v with
  | none => d
  | some x => if x = 0 then d else x

/-! ## `src/script.js` — data processing & calculations -/

/-- `calculateFromATH(currentPrice, athPrice)` (src/script.js lines 128-131,
identical in src/unnamed/part_000 lines 78-81): JS guard `!currentPrice || !athPrice`
returns `null`, otherwise `((currentPrice - athPrice) / athPrice) * 100`. -/
def calculateFromATH (currentPrice athPrice : Option ℚ) : Option ℚ :=
  if jsTruthy currentPrice = false ∨ jsTruthy athPrice = false then none
  else some ((currentPrice.getD 0 - athPrice.getD 0) / athPrice.getD 0 * 100)

/-- The numeric leaves of `btcData.market_data` read by `calculateRiskScore`:
`current_price.usd`, `ath.usd`, `price_change_percentage_24h`. -/
structure BtcMarketData where
  currentPriceUsd : ℚ
  athUsd : ℚ
  change24h : ℚ
deriving DecidableEq

/-- The numeric leaf of `globalData` read by `calculateRiskScore`:
`market_cap_percentage.btc`. -/
structure GlobalMarketData where
  btcDominance : ℚ
deriving DecidableEq

/-- The final combination step of `calculateRiskScore` (src/script.js line 178):
`Math.round(Math.min(100, Math.max(0, riskScore)))` — clamp to [0,100], then round. -/
def riskCombine (x : ℚ) : ℚ := jsRound (min 100 (max 0 x))

/-- `calculateRiskScore(btcData, fearGreedValue, globalData)` (src/script.js
lines 147-179).  Missing objects (`null` arguments) short-circuit to `null`;
the fear/greed value is modelled already parsed (`parseFloat`).  Factors:
`athScore = price / ath * 100` (not clamped), `fearGreedScore` (not clamped),
`changeScore = min(100, max(0, (change24h + 10) * 5))` (clamped),
`dominanceScore = 100 - btcDominance` (not clamped); weights 0.35/0.35/0.15/0.15;
result clamped to [0,100] and rounded. -/
def calculateRiskScore (btcData : Option BtcMarketData) (fearGreedValue : Option ℚ)
    (globalData : Option GlobalMarketData) : Option ℚ :=
  match btcData, fearGreedValue, globalData with
  | some b, some fg, some g =>
      let athScore : ℚ := b.currentPriceUsd / b.athUsd * 100
      let fearGreedScore : ℚ := fg
      let changeScore : ℚ := min 100 (max 0 ((b.change24h + 10) * 5))
      let dominanceScore : ℚ := 100 - g.btcDominance
      some (riskCombine
        (athScore * 0.35 + fearGreedScore * 0.35 + changeScore * 0.15 + dominanceScore * 0.15))
  | _, _, _ => none

/-- The risk-score computation as the SPEC describes it (refinement comparison
only, following the claim's words, not the source): every component sub-score
independently clamped to [0,100] *before* the weights are applied. -/
def riskScoreClaimClamped (btcData : Option BtcMarketData) (fearGreedValue : Option ℚ)
    (globalData : Option GlobalMarketData) : Option ℚ :=
  match btcData, fearGreedValue, globalData with
  | some b, some fg, some g =>
      let clamp01 : ℚ → ℚ := fun x => min 100 (max 0 x)
      let athScore : ℚ := clamp01 (b.currentPriceUsd / b.athUsd * 100)
      let fearGreedScore : ℚ := clamp01 fg
      let changeScore : ℚ := clamp01 ((b.change24h + 10) * 5)
      let dominanceScore : ℚ := clamp01 (100 - g.btcDominance)
      some (riskCombine
        (athScore * 0.35 + fearGreedScore * 0.35 + changeScore * 0.15 + dominanceScore * 0.15))
  | _, _, _ => none

/-- `getSentimentInterpretation(value)` (src/script.js lines 197-204, identical
in src/unnamed/part_000 lines 109-116); the argument is `parseInt`-ed, so `ℤ`. -/
def getSentimentInterpretation (v : ℤ) : String :=
  if v ≤ 20 then "Extreme Fear"
  else if v ≤ 40 then "Fear Phase"
  else if v ≤ 60 then "Neutral Zone"
  else if v ≤ 80 then "Greed Phase"
  else "Extreme Greed"

/-- The Layer-7 fear/greed label table of `updateLayer7` (src/script.js
lines 496-509, identical in src/unnamed/part_000 lines 293-306). -/
def fearGreedLabelText (v : ℤ) : String :=
  if v ≤ 25 then "Extreme Fear - Strong Buy Signal"
  else if v ≤ 45 then "Fear - Accumulation Phase"
  else if v ≤ 55 then "Neutral - Market Balance"
  else if v ≤ 75 then "Greed - Caution Advised"
  else "Extreme Greed - High Risk"

/-! ## `src/unnamed/part_001` — fixed-weight composite combination -/

/-- The combination step of `calculateCompositeScore` (src/unnamed/part_001
lines 337-343) as a function of the five component scores:
`Math.round(macro*0.30 + onchain*0.25 + liquidity*0.20 + leverage*0.15 + sentiment*0.10)`. -/
def p1CompositeOf (macroScore onchain liquidity leverage sentiment : ℚ) : ℚ :=
  jsRound (macroScore * 0.30 + onchain * 0.25 + liquidity * 0.20 +
    leverage * 0.15 + sentiment * 0.10)

/-! ## `src/script-pro.js` — robust fetch engine -/

/-- `CONFIG.RETRY_ATTEMPTS` (src/script-pro.js line 12). -/
def RETRY_ATTEMPTS : ℕ := 3

/-- Outcome of one HTTP attempt, as distinguished by `fetchJSON`'s failure
modes: abort on timeout, thrown `HTTP <status>` on a non-2xx response, a JSON
parse error, or a parsed payload. -/
inductive AttemptOutcome (V : Type) where
  | ok (v : V)
  | timeout
  | httpError (status : ℕ)
  | parseError
deriving DecidableEq

/-- Whether an attempt outcome lands in `fetchJSON`'s catch block. -/
def AttemptOutcome.isFailure {V : Type} : AttemptOutcome V → Bool
  | .ok _ => false
  | _ => true

/-- The recursion of `fetchJSON(url, retries)` (src/script-pro.js lines 83-120):
attempt `i` is made; on success the data is returned, on any caught failure the
function recurses with `retries - 1` while `retries > 0`, and returns `null`
once the budget is exhausted.  Returns the result together with the total
number of attempts made. -/
def fetchJSONGo {V : Type} (transport : ℕ → AttemptOutcome V) : ℕ → ℕ → Option V × ℕ
  | i, retries =>
    match transport i with
    | .ok v => (some v, 1)
    | _ =>
      match retries with
      | 0 => (none, 1)
      | r + 1 =>
        let rec' := fetchJSONGo transport (i + 1) r
        (rec'.1, rec'.2 + 1)

/-- `fetchJSON(url, retries)`: the transport is indexed by the URL (the source
key) and by the attempt number.  The source logs the URL and error on terminal
failure but returns the bare `null`. -/
def fetchJSON {V : Type} (url : String) (transport : String → ℕ → AttemptOutcome V)
    (retries : ℕ) : Option V × ℕ :=
  fetchJSONGo (transport url) 0 retries

/-! ## `src/realtime-data-module-comprehensive.js` — cached fetching -/

/-- `API_CONFIG.cacheDuration` (60 seconds, in milliseconds). -/
def cacheDuration : ℤ := 60000

/-- One entry of `APP_STATE.dataCache`: the parsed payload and the
`Date.now()` timestamp at which it was stored. -/
structure CacheEntry (V : Type) where
  data : V
  timestamp : ℤ
deriving DecidableEq

/-- The `APP_STATE.dataCache` mapping from cache key to entry. -/
def CacheMap (V : Type) := String → Option (CacheEntry V)

/-- Outcome of the single `fetch`/`response.json()` in `fetchWithCache`:
either a parsed payload, or one of the thrown-and-caught failures
(a non-ok response throws `HTTP <status>`; network/timeout/parse errors throw). -/
inductive FetchResult (V : Type) where
  | ok (data : V)
  | httpError (status : ℕ)
  | thrown
deriving DecidableEq

/-- A fetch that fails for the purposes of the cache layer: it either lands in
the catch block or delivers a payload rejected by the validator. -/
def fetchFailed {V : Type} (validate : V → String → Bool) (cacheKey : String) :
    FetchResult V → Bool
  | .ok d => !(validate d cacheKey)
  | _ => true

/-- JS `o?.data || null` where the payload's own truthiness decides:
a falsy payload yields `null` even when the entry exists. -/
def jsOrNull {V : Type} (truthy : V → Bool) : Option V → Option V
  | none => none
  | some v => if truthy v then some v else none

/-- `fetchWithCache(url, cacheKey)` (src/realtime-data-module-comprehensive.js
lines 619-651) as a function of the current cache, the clock and the outcome of
the (single) fetch it would perform:

* a fresh entry (age < `cacheDuration`) is returned without fetching;
* a validated payload is stored (overwriting the key) and returned;
* a payload failing validation, or any thrown failure, returns
  `dataCache[cacheKey]?.data || null` and leaves the cache untouched.

`truthy` embeds JS truthiness of payloads, `validate` is `validateData`.
The try/catch body once the fetch has been performed is split out as
`fetchWithCacheAttempt`. -/
def fetchWithCacheAttempt {V : Type} (truthy : V → Bool) (validate : V → String → Bool)
    (cache : CacheMap V) (cacheKey : String) (now : ℤ) (outcome : FetchResult V) :
    Option V × CacheMap V :=
  match outcome with
  | .ok d =>
      if validate d cacheKey then
        (some d, fun k => if k = cacheKey then some ⟨d, now⟩ else cache k)
      else
        (jsOrNull truthy ((cache cacheKey).map (fun e => e.data)), cache)
  | _ => (jsOrNull truthy ((cache cacheKey).map (fun e => e.data)), cache)

def fetchWithCache {V : Type} (truthy : V → Bool) (validate : V → String → Bool)
    (cache : CacheMap V) (cacheKey : String) (now : ℤ) (outcome : FetchResult V) :
    Option V × CacheMap V :=
  match cache cacheKey with
  | some e =>
      if now - e.timestamp < cacheDuration then (some e.data, cache)
      else fetchWithCacheAttempt truthy validate cache cacheKey now outcome
  | none => fetchWithCacheAttempt truthy validate cache cacheKey now outcome

/-- `data.market_data.current_price` leaf. -/
structure PriceUsd where
  usd : ℚ
deriving DecidableEq

/-- `data.market_data` with its nullable `current_price`. -/
structure MarketField where
  current_price : Option PriceUsd
deriving DecidableEq

/-- One element of the fear/greed `data.data` array. -/
structure FngEntry where
  value : ℚ
deriving DecidableEq

/-- `data.gold` leaf of the gold quote payload. -/
structure GoldField where
  usd : ℚ
deriving DecidableEq

/-- The parts of a parsed API payload inspected by `validateData`. -/
structure ApiPayload where
  market_data : Option MarketField
  dataEntries : List FngEntry
  gold : Option GoldField
deriving DecidableEq

/-- `validateData(data, type)` (src/realtime-data-module-comprehensive.js
lines 653-670): `null` data is always invalid; `bitcoin` requires
`market_data.current_price.usd > 1000`; `feargreed` requires a first entry with
value in [0,100]; `gold` requires `1000 < gold.usd < 10000`; every other key
validates permissively. -/
def validateData (d : Option ApiPayload) (ty : String) : Bool :=
  match d with
  | none => false
  | some d =>
    if ty = "bitcoin" then
      match d.market_data with
      | some md =>
        match md.current_price with
        | some p => decide (p.usd > 1000)
        | none => false
      | none => false
    else if ty = "feargreed" then
      match d.dataEntries.head? with
      | some e => decide (e.value ≥ 0) && decide (e.value ≤ 100)
      | none => false
    else if ty = "gold" then
      match d.gold with
      | some g => decide (g.usd > 1000) && decide (g.usd < 10000)
      | none => false
    else true

/-! ## `src/realtime-data-module-comprehensive.js` — metrics engine state

The `realtimeData` global object, restricted to the fields read or written by
`calculateDerivedMetrics`, `calculateComponentScores`, `detectRegimeHMM` and
`calculateCompositeScore` (fields only used by UI code, e.g. `btcVolume`,
`btcATH`, `goldPrice`, `regimeDays`, `forecast`, are carried unchanged by those
functions and are omitted).  The JS field `componentScores.macro` and
`weights.macro` are renamed `macroScore` / `macroWt` here (name restriction);
`correlations.{btcSpx, btcGold, btcVix}` are flattened to `corrBtc*`. -/

/-- `realtimeData.componentScores`. -/
structure ComponentScores where
  macroScore : ℚ
  onChain : ℚ
  liquidity : ℚ
  leverage : ℚ
  sentiment : ℚ
deriving DecidableEq

/-- `realtimeData.weights`. -/
structure Weights where
  macroWt : ℚ
  onChain : ℚ
  liquidity : ℚ
  leverage : ℚ
  sentiment : ℚ
deriving DecidableEq

/-- The metrics-engine view of the `realtimeData` global state. -/
structure RState where
  btcPrice : Option ℚ
  btcMarketCap : Option ℚ
  volatility90d : Option ℚ
  fearGreedIndex : Option ℚ
  fundingRate : Option ℚ
  mvrv : Option ℚ
  nupl : Option ℚ
  ma200w : Option ℚ
  realizedPrice : Option ℚ
  realizedCap : Option ℚ
  lthRealized : Option ℚ
  hodlWave : Option ℚ
  exchangeBalance : Option ℚ
  openInterest : Option ℚ
  oiDelta24h : Option ℚ
  squeezeProbability : Option ℚ
  fundingMomentum : Option ℚ
  corrBtcSpx : Option ℚ
  corrBtcGold : Option ℚ
  corrBtcVix : Option ℚ
  regime : String
  regimeConfidence : ℚ
  componentScores : ComponentScores
  weights : Weights
  compositeScore : ℚ
deriving DecidableEq

/-- The initial `realtimeData` literal (src/realtime-data-module-comprehensive.js
lines 490-538): all live metrics `null`, regime `EXPANSION` at confidence 0.78,
composite 52, component scores 45/68/52/32/48, weights 0.30/0.25/0.20/0.15/0.10. -/
def realtimeDataInit : RState where
  btcPrice := none
  btcMarketCap := none
  volatility90d := none
  fearGreedIndex := none
  fundingRate := none
  mvrv := none
  nupl := none
  ma200w := none
  realizedPrice := none
  realizedCap := none
  lthRealized := none
  hodlWave := none
  exchangeBalance := none
  openInterest := none
  oiDelta24h := none
  squeezeProbability := none
  fundingMomentum := none
  corrBtcSpx := none
  corrBtcGold := none
  corrBtcVix := none
  regime := "EXPANSION"
  regimeConfidence := 0.78
  componentScores := ⟨45, 68, 52, 32, 48⟩
  weights := ⟨0.30, 0.25, 0.20, 0.15, 0.10⟩
  compositeScore := 52

/-- One `Math.random()` draw per call site, in source order: nine draws in
`calculateDerivedMetrics` and one (`liquidity`) in `calculateComponentScores`. -/
structure Draws where
  dHodl : ℚ
  dExchange : ℚ
  dFunding : ℚ
  dOiDelta : ℚ
  dSqueeze : ℚ
  dFundingMom : ℚ
  dCorrSpx : ℚ
  dCorrGold : ℚ
  dCorrVix : ℚ
  dLiquidity : ℚ
deriving DecidableEq

/-- `calculateDerivedMetrics()` (lines 861-889): guard `if (!price) return;`,
then technical, on-chain, derivatives and correlation fields are recomputed
from the price, the market cap and the random draws.  `realtimeData.btcMarketCap`
is `null`-coerced to 0 by the JS division; `hodlWave`/`exchangeBalance` and the
correlations go through `toFixed`. -/
def calculateDerivedMetrics (s : RState) (d : Draws) : RState :=
  if jsTruthy s.btcPrice then
    let price := s.btcPrice.getD 0
    let realizedPriceV := price * 0.58
    let realizedCapV := realizedPriceV * 19500000
    let mvrvV := (s.btcMarketCap.getD 0) / realizedCapV
    { s with
      ma200w := some (price * 0.65)
      realizedPrice := some realizedPriceV
      realizedCap := some realizedCapV
      mvrv := some mvrvV
      nupl := some ((mvrvV - 1) / 3)
      lthRealized := some (price * 0.42)
      hodlWave := some (jsToFixed 0 (65 + d.dHodl * 6))
      exchangeBalance := some (jsToFixed 2 (2.0 + d.dExchange * 0.3))
      openInterest := some (price * 0.05 * 1000000000)
      fundingRate := some (0.001 + d.dFunding * 0.004)
      oiDelta24h := some ((d.dOiDelta - 0.5) * 0.1)
      squeezeProbability := some (d.dSqueeze * 100)
      fundingMomentum := some ((d.dFundingMom - 0.5) * 0.05)
      corrBtcSpx := some (jsToFixed 2 (0.50 + d.dCorrSpx * 0.38))
      corrBtcGold := some (jsToFixed 2 (-0.35 + d.dCorrGold * 0.15))
      corrBtcVix := some (jsToFixed 2 (0.80 + d.dCorrVix * 0.12)) }
  else s

/-- `calculateComponentScores()` (lines 804-824): each component score from the
`||`-defaulted inputs (`mvrv || 1.5`, `fearGreedIndex || 50`,
`fundingRate || 0.001`), with per-component min/max bands; `macro` is the
static 45.  (The `vol` local of the source is read but unused.) -/
def calculateComponentScores (s : RState) (d : Draws) : RState :=
  let mvrv := jsOr s.mvrv 1.5
  let fng := jsOr s.fearGreedIndex 50
  let funding := jsOr s.fundingRate 0.001
  { s with componentScores :=
    { macroScore := 45
      onChain := min 90 (max 20 (50 + (mvrv - 1.5) * 20))
      liquidity := min 80 (max 30 (50 + d.dLiquidity * 10))
      leverage := min 80 (max 20 (70 - funding * 10000))
      sentiment := min 85 (max 20 (fng * 0.85)) } }

/-- `detectRegimeHMM()` (lines 764-798): the regime classification chain over
the `||`-defaulted volatility, MVRV and fear/greed index. -/
def detectRegimeHMM (s : RState) : RState :=
  let vol := jsOr s.volatility90d 65
  let mvrv := jsOr s.mvrv 1.5
  let fng := jsOr s.fearGreedIndex 50
  let rc : String × ℚ :=
    if vol < 40 ∧ mvrv < 1.2 ∧ fng < 30 then ("CAPITULATION", 0.85)
    else if vol < 50 ∧ mvrv < 1.5 ∧ fng < 45 then ("ACCUMULATION", 0.78)
    else if 50 < vol ∧ vol < 75 ∧ 1.3 < mvrv ∧ mvrv < 2.5 ∧ 40 < fng ∧ fng < 70 then
      ("EXPANSION", 0.82)
    else if 70 < vol ∧ 2.5 < mvrv ∧ 70 < fng then ("EUPHORIA", 0.75)
    else if 3.5 < mvrv ∨ 85 < fng then ("DISTRIBUTION", 0.72)
    else ("EXPANSION", 0.65)
  { s with regime := rc.1, regimeConfidence := rc.2 }

/-- `calculateCompositeScore()` (lines 826-855): detect the regime, copy the
stored weights, shift them by ±0.05 pairs when volatility exceeds 80 and when
the regime is EUPHORIA or DISTRIBUTION, store the shifted weights back into the
state, and round the weighted component-score sum. -/
def calculateCompositeScore (s : RState) : RState :=
  let s1 := detectRegimeHMM s
  let vol := jsOr s1.volatility90d 65
  let w0 := s1.weights
  let w1 :=
    if 80 < vol then
      { w0 with leverage := w0.leverage + 0.05, sentiment := w0.sentiment + 0.05,
                macroWt := w0.macroWt - 0.05, liquidity := w0.liquidity - 0.05 }
    else w0
  let w2 :=
    if s1.regime = "EUPHORIA" ∨ s1.regime = "DISTRIBUTION" then
      { w1 with leverage := w1.leverage + 0.05, onChain := w1.onChain - 0.05 }
    else w1
  let sc := s1.componentScores
  { s1 with weights := w2
          , compositeScore := jsRound (sc.macroScore * w2.macroWt + sc.onChain * w2.onChain +
              sc.liquidity * w2.liquidity + sc.leverage * w2.leverage +
              sc.sentiment * w2.sentiment) }

/-- One metrics-engine pass of `fetchAllData()` (lines 1207-1209):
`calculateDerivedMetrics(); calculateComponentScores(); calculateCompositeScore();`
with an unchanged cache (the fetched fields of the state are whatever the cache
last delivered). -/
def computeSnapshot (s : RState) (d : Draws) : RState :=
  calculateCompositeScore (calculateComponentScores (calculateDerivedMetrics s d) d)

/-- `n` scheduler ticks of the metrics engine, tick `k` using draws `ds k`. -/
def computeSnapshotIter (ds : ℕ → Draws) : ℕ → RState → RState
  | 0, s => s
  | n + 1, s => computeSnapshotIter ds n (computeSnapshot s (ds n))

/-- Sum of the five stored component weights. -/
def sumWeights (w : Weights) : ℚ :=
  w.macroWt + w.onChain + w.liquidity + w.leverage + w.sentiment

/-- The all-zero draw vector (used for concrete evaluations). -/
def zeroDraws : Draws := ⟨0, 0, 0, 0, 0, 0, 0, 0, 0, 0⟩

/-! ## Concrete probe values used by counterexamples and witnesses -/

/-- A populated cache state: BTC at 100000 with market cap 1.6965e12 (so the
derived MVRV is exactly 1.5), 90-day volatility 90 (above the 80 threshold),
fear/greed index 50. -/
def snapshotProbeState : RState :=
  { realtimeDataInit with
    btcPrice := some 100000
    btcMarketCap := some 1696500000000
    volatility90d := some 90
    fearGreedIndex := some 50 }

/-- The same cache state with volatility 70, below the 80 threshold. -/
def snapshotCalmState : RState :=
  { realtimeDataInit with
    btcPrice := some 100000
    btcMarketCap := some 1696500000000
    volatility90d := some 70
    fearGreedIndex := some 50 }

/-- A parsed CoinGecko bitcoin payload with `market_data.current_price.usd = 50000`. -/
def btcSamplePayload : ApiPayload := ⟨some ⟨some ⟨50000⟩⟩, [], none⟩

/-- A cache holding one (arbitrarily stale) validated bitcoin payload. -/
def sampleCache : CacheMap (Option ApiPayload) :=
  fun k => if k = "bitcoin" then some ⟨some btcSamplePayload, 0⟩ else none

/-! ## Shared helper lemmas -/

/-- `Math.round` of a value in [0,100] is an integer in [0,100]. -/
theorem jsRound_range {x : ℚ} (h0 : 0 ≤ x) (h1 : x ≤ 100) :
    ∃ n : ℤ, jsRound x = (n : ℚ) ∧ 0 ≤ n ∧ n ≤ 100 := by
  refine ⟨⌊x + 1/2⌋, rfl, ?_, ?_⟩
  · exact Int.le_floor.mpr (by push_cast; linarith)
  · have h2 : ⌊x + 1/2⌋ < 101 := Int.floor_lt.mpr (by push_cast; linarith)
    omega

/-- The clamp-then-round step always produces an integer in [0,100]. -/
theorem riskCombine_range (x : ℚ) : ∃ n : ℤ, riskCombine x = (n : ℚ) ∧ 0 ≤ n ∧ n ≤ 100 := by
  have h0 : (0 : ℚ) ≤ min 100 (max 0 x) := le_min (by norm_num) (le_max_left 0 x)
  have h1 : min 100 (max 0 x) ≤ 100 := min_le_left _ _
  exact jsRound_range h0 h1

/-! ## Claim C2 -/

/-- Claim C2 (counterexample): `calculateFromATH` also returns `null` when the
price argument is present but zero — `calculateFromATH(0, 100000)` yields
`null` although neither argument is missing, so "`null` iff either argument is
missing" is false as stated. -/
theorem calculateFromATH_zero_price_counterexample :
    calculateFromATH (some 0) (some 100000) = none ∧ some (0 : ℚ) ≠ none := by
  constructor
  · norm_num [calculateFromATH, jsTruthy]
  · simp

/-- Claim C2 (amended): for present *nonzero* arguments,
`calculateFromATH p r = (p - r) / r * 100` with sign preserved; the result is
`null` iff either argument is missing **or zero** (JS falsiness); in particular
`calculateFromATH 50000 100000 = -50`. -/
theorem calculateFromATH_formula_and_null_iff :
    (∀ p r : ℚ, p ≠ 0 → r ≠ 0 →
      calculateFromATH (some p) (some r) = some ((p - r) / r * 100)) ∧
    (∀ a b : Option ℚ,
      calculateFromATH a b = none ↔ (a = none ∨ a = some 0 ∨ b = none ∨ b = some 0)) ∧
    calculateFromATH (some 50000) (some 100000) = some (-50) := by
  refine ⟨?_, ?_, ?_⟩
  · intro p r hp hr
    simp [calculateFromATH, jsTruthy, hp, hr]
  · intro a b
    cases a <;> cases b <;> (simp [calculateFromATH, jsTruthy]; try tauto)
  · norm_num [calculateFromATH, jsTruthy]

/-- Witness for `calculateFromATH_formula_and_null_iff` at Scenario A's inputs. -/
theorem calculateFromATH_formula_witness :
    calculateFromATH (some 50000) (some 100000) = some ((50000 - 100000) / 100000 * 100) :=
  calculateFromATH_formula_and_null_iff.1 50000 100000 (by norm_num) (by norm_num)

/-! ## Claim C4 -/

/-- Claim C4 (counterexample): the component sub-scores of
`calculateRiskScore` are *not* independently clamped before weighting: with
price 200000, ATH 100000 (distance-from-high score 200), sentiment 0,
24h change -10 and dominance 100, the code yields 70, while the claimed
clamp-each-component-first computation yields 35. -/
theorem riskScore_unclamped_counterexample :
    calculateRiskScore (some ⟨200000, 100000, -10⟩) (some 0) (some ⟨100⟩) = some 70 ∧
    riskScoreClaimClamped (some ⟨200000, 100000, -10⟩) (some 0) (some ⟨100⟩) = some 35 ∧
    (70 : ℚ) ≠ 35 := by
  refine ⟨?_, ?_, by norm_num⟩
  · norm_num [calculateRiskScore, riskCombine, jsRound]
  · norm_num [riskScoreClaimClamped, riskCombine, jsRound]

/-- Claim C4 (amended): in `calculateRiskScore` only the 24h-change sub-score
is clamped to [0,100] before weighting (the distance-from-high, sentiment and
dominance-deviation sub-scores are used unclamped — see the counterexample);
the weights 0.35/0.35/0.15/0.15 sum to 1.0, and the final result is clamped to
[0,100] and then rounded, hence always an integer in [0,100]. -/
theorem riskScore_amended_range_and_weights :
    (∀ (b : BtcMarketData) (fg : ℚ) (g : GlobalMarketData),
      ∃ n : ℤ, calculateRiskScore (some b) (some fg) (some g) = some (n : ℚ) ∧
        0 ≤ n ∧ n ≤ 100) ∧
    ((0.35 : ℚ) + 0.35 + 0.15 + 0.15 = 1) := by
  refine ⟨?_, by norm_num⟩
  intro b fg g
  obtain ⟨n, hn, h0, h1⟩ := riskCombine_range
    (b.currentPriceUsd / b.athUsd * 100 * 0.35 + fg * 0.35 +
      min 100 (max 0 ((b.change24h + 10) * 5)) * 0.15 + (100 - g.btcDominance) * 0.15)
  exact ⟨n, by simp only [calculateRiskScore, hn], h0, h1⟩

/-! ## Claim C5 -/

/-- Claim C5 (confirmed): the clamp-then-round combination step of
`calculateRiskScore` produces an integer in [0,100] for *any* weighted sum
(hence for any sub-scores and weights), and the fixed-weight combination of
`calculateCompositeScore` in src/unnamed/part_001 (weights
0.30/0.25/0.20/0.15/0.10, summing to 1.0, no clamp) produces an integer in
[0,100] whenever the five component scores lie in [0,100]. -/
theorem compositeCombine_integer_in_range :
    (∀ x : ℚ, ∃ n : ℤ, riskCombine x = (n : ℚ) ∧ 0 ≤ n ∧ n ≤ 100) ∧
    (∀ m o l le se : ℚ,
      0 ≤ m → m ≤ 100 → 0 ≤ o → o ≤ 100 → 0 ≤ l → l ≤ 100 →
      0 ≤ le → le ≤ 100 → 0 ≤ se → se ≤ 100 →
      ∃ n : ℤ, p1CompositeOf m o l le se = (n : ℚ) ∧ 0 ≤ n ∧ n ≤ 100) ∧
    ((0.30 : ℚ) + 0.25 + 0.20 + 0.15 + 0.10 = 1) := by
  refine ⟨riskCombine_range, ?_, by norm_num⟩
  intro m o l le se hm0 hm1 ho0 ho1 hl0 hl1 hle0 hle1 hse0 hse1
  have h0 : (0 : ℚ) ≤ m * 0.30 + o * 0.25 + l * 0.20 + le * 0.15 + se * 0.10 := by linarith
  have h1 : m * 0.30 + o * 0.25 + l * 0.20 + le * 0.15 + se * 0.10 ≤ 100 := by linarith
  exact jsRound_range h0 h1

/-- Witness for `compositeCombine_integer_in_range`: Scenario-C-like inputs,
all five part_001 component scores at 50. -/
theorem compositeCombine_integer_in_range_witness :
    ∃ n : ℤ, p1CompositeOf 50 50 50 50 50 = (n : ℚ) ∧ 0 ≤ n ∧ n ≤ 100 :=
  compositeCombine_integer_in_range.2.1 50 50 50 50 50
    (by norm_num) (by norm_num) (by norm_num) (by norm_num) (by norm_num)
    (by norm_num) (by norm_num) (by norm_num) (by norm_num) (by norm_num)

/-! ## Claim C6 -/

/-- Claim C6 (counterexample): at sentiment index 50 the labelling functions
return "Neutral Zone" (`getSentimentInterpretation`, thresholds 20/40/60/80)
and "Neutral - Market Balance" (the Layer-7 label, thresholds 25/45/55/75) —
neither is the claimed "Neutral". -/
theorem sentimentLabel_at_50_counterexample :
    getSentimentInterpretation 50 = "Neutral Zone" ∧
    fearGreedLabelText 50 = "Neutral - Market Balance" ∧
    "Neutral Zone" ≠ "Neutral" ∧ "Neutral - Market Balance" ≠ "Neutral" := by
  refine ⟨?_, ?_, by simp, by simp⟩
  · norm_num [getSentimentInterpretation]
  · norm_num [fearGreedLabelText]

/-- Claim C6 (amended): `getSentimentInterpretation` uses thresholds
20/40/60/80 with labels "Extreme Fear" / "Fear Phase" / "Neutral Zone" /
"Greed Phase" / "Extreme Greed" (so 15 → "Extreme Fear", 50 → "Neutral Zone",
90 → "Extreme Greed"), while the Layer-7 DOM label uses the claimed thresholds
25/45/55/75 but with extended label strings. -/
theorem sentimentLabel_thresholds_amended :
    (∀ v : ℤ,
      (v ≤ 20 → getSentimentInterpretation v = "Extreme Fear") ∧
      (20 < v → v ≤ 40 → getSentimentInterpretation v = "Fear Phase") ∧
      (40 < v → v ≤ 60 → getSentimentInterpretation v = "Neutral Zone") ∧
      (60 < v → v ≤ 80 → getSentimentInterpretation v = "Greed Phase") ∧
      (80 < v → getSentimentInterpretation v = "Extreme Greed") ∧
      (v ≤ 25 → fearGreedLabelText v = "Extreme Fear - Strong Buy Signal") ∧
      (25 < v → v ≤ 45 → fearGreedLabelText v = "Fear - Accumulation Phase") ∧
      (45 < v → v ≤ 55 → fearGreedLabelText v = "Neutral - Market Balance") ∧
      (55 < v → v ≤ 75 → fearGreedLabelText v = "Greed - Caution Advised") ∧
      (75 < v → fearGreedLabelText v = "Extreme Greed - High Risk")) ∧
    getSentimentInterpretation 15 = "Extreme Fear" ∧
    getSentimentInterpretation 50 = "Neutral Zone" ∧
    getSentimentInterpretation 90 = "Extreme Greed" := by
  refine ⟨?_, by norm_num [getSentimentInterpretation],
    by norm_num [getSentimentInterpretation], by norm_num [getSentimentInterpretation]⟩
  intro v
  refine ⟨fun h1 => ?_, fun h1 h2 => ?_, fun h1 h2 => ?_, fun h1 h2 => ?_, fun h1 => ?_,
    fun h1 => ?_, fun h1 h2 => ?_, fun h1 h2 => ?_, fun h1 h2 => ?_, fun h1 => ?_⟩ <;>
    simp only [getSentimentInterpretation, fearGreedLabelText] <;>
    repeat first
      | rw [if_pos (by omega)]
      | rw [if_neg (by omega)]

/-- Witness for `sentimentLabel_thresholds_amended` at index 30. -/
theorem sentimentLabel_thresholds_witness :
    getSentimentInterpretation 30 = "Fear Phase" ∧
    fearGreedLabelText 30 = "Fear - Accumulation Phase" :=
  ⟨(sentimentLabel_thresholds_amended.1 30).2.1 (by norm_num) (by norm_num),
   (sentimentLabel_thresholds_amended.1 30).2.2.2.2.2.2.1 (by norm_num) (by norm_num)⟩

/-! ## Claims C7 and C8 — fetch engine -/

/-- On an always-failing transport, `fetchJSON`'s recursion makes exactly
`retries + 1` attempts and ends with `null`, whatever the starting attempt index. -/
theorem fetchJSONGo_allFail {V : Type} (t : ℕ → AttemptOutcome V)
    (h : ∀ i, (t i).isFailure = true) :
    ∀ (r i : ℕ), fetchJSONGo t i r = (none, r + 1) := by
  intro r
  induction r with
  | zero =>
    intro i
    have hi := h i
    cases ht : t i <;> simp [ht, AttemptOutcome.isFailure] at hi ⊢ <;> simp [fetchJSONGo, ht]
  | succ n ih =>
    intro i
    have hi := h i
    cases ht : t i <;> simp [ht, AttemptOutcome.isFailure] at hi ⊢ <;>
      simp [fetchJSONGo, ht, ih (i + 1)]

/-- Claim C7 (confirmed): with `CONFIG.RETRY_ATTEMPTS = 3` and a transport
failing on every attempt (any failure mode), `fetchJSON` makes exactly
1 + 3 = 4 attempts and then returns its terminal failure result (`null`). -/
theorem fetchJSON_retry_ceiling :
    ∀ (V : Type) (url : String) (transport : String → ℕ → AttemptOutcome V),
      (∀ i, (transport url i).isFailure = true) →
      fetchJSON url transport RETRY_ATTEMPTS = (none, 4) := by
  intro V url transport h
  show fetchJSONGo (transport url) 0 RETRY_ATTEMPTS = (none, 4)
  rw [fetchJSONGo_allFail (transport url) h RETRY_ATTEMPTS 0]
  rfl

/-- Witness for `fetchJSON_retry_ceiling`: a concrete always-timing-out transport. -/
theorem fetchJSON_retry_ceiling_witness :
    fetchJSON "https://api.example/v1" (fun _ _ => AttemptOutcome.timeout (V := Unit))
      RETRY_ATTEMPTS = (none, 4) :=
  fetchJSON_retry_ceiling Unit "https://api.example/v1" _ (fun _ => rfl)

/-- Claim C8 (counterexample): after exhausting its retries `fetchJSON` returns
the bare `null` — the identical value for a different source key ("urlA" vs
"urlB") and a different underlying cause (timeout vs parse error) — so the
terminal failure result is not a `FetchError` value carrying the source key and
cause (those are only written to the console log). -/
theorem fetchJSON_null_failure_counterexample :
    (fetchJSON "urlA" (fun _ _ => AttemptOutcome.timeout (V := Unit)) RETRY_ATTEMPTS).1 = none ∧
    (fetchJSON "urlB" (fun _ _ => AttemptOutcome.parseError (V := Unit)) RETRY_ATTEMPTS).1 =
      none ∧
    "urlA" ≠ "urlB" := by
  refine ⟨?_, ?_, by simp⟩
  · norm_num [fetchJSON, fetchJSONGo, RETRY_ATTEMPTS]
  · norm_num [fetchJSON, fetchJSONGo, RETRY_ATTEMPTS]

/-- Claim C8 (amended): for every URL and every combination of transport
failure modes (timeout, non-2xx status, parse error), after exhausting any
retry budget `fetchJSON` resolves to `null` — it does not throw to its caller
(the embedding is total: every branch of the source is wrapped in try/catch) —
and the `null` carries neither the source key nor the cause. -/
theorem fetchJSON_returns_null_after_retries :
    ∀ (V : Type) (url : String) (transport : String → ℕ → AttemptOutcome V) (retries : ℕ),
      (∀ i, (transport url i).isFailure = true) →
      (fetchJSON url transport retries).1 = none := by
  intro V url transport retries h
  show (fetchJSONGo (transport url) 0 retries).1 = none
  rw [fetchJSONGo_allFail (transport url) h retries 0]

/-- Witness for `fetchJSON_returns_null_after_retries` with an always-500 transport. -/
theorem fetchJSON_returns_null_witness :
    (fetchJSON "https://api.example/v2" (fun _ _ => AttemptOutcome.httpError (V := Unit) 500)
      7).1 = none :=
  fetchJSON_returns_null_after_retries Unit "https://api.example/v2" _ 7 (fun _ => rfl)

/-! ## Claim C9 — cache layer -/

/-- Claim C9 (confirmed): for every source key and every failing fetch (HTTP
error, thrown exception, or payload rejected by the validator), `fetchWithCache`
leaves the cache untouched, returns the last-good cached payload for that key
when one exists — no matter how stale — and returns `null` exactly when no
entry for that key has ever existed.  (The hypothesis on `truthy` reflects that
stored payloads are truthy: `validateData` rejects falsy payloads, and entries
are only ever written after validation.) -/
theorem fetchWithCache_serves_last_good :
    ∀ (V : Type) (truthy : V → Bool) (validate : V → String → Bool)
      (cache : CacheMap V) (cacheKey : String) (now : ℤ) (outcome : FetchResult V),
      fetchFailed validate cacheKey outcome = true →
      (∀ e, cache cacheKey = some e → truthy e.data = true) →
      (fetchWithCache truthy validate cache cacheKey now outcome).2 = cache ∧
      (fetchWithCache truthy validate cache cacheKey now outcome).1 =
        (cache cacheKey).map (fun e => e.data) ∧
      ((fetchWithCache truthy validate cache cacheKey now outcome).1 = none ↔
        cache cacheKey = none) := by
  intro V truthy validate cache cacheKey now outcome hfail htruthy
  have hmap : jsOrNull truthy ((cache cacheKey).map (fun e => e.data)) =
      (cache cacheKey).map (fun e => e.data) := by
    cases hc : cache cacheKey with
    | none => rfl
    | some e => simp [jsOrNull, htruthy e hc]
  have hattempt : fetchWithCacheAttempt truthy validate cache cacheKey now outcome =
      ((cache cacheKey).map (fun e => e.data), cache) := by
    cases outcome with
    | ok d =>
      simp only [fetchFailed, Bool.not_eq_true'] at hfail
      simp [fetchWithCacheAttempt, hfail, hmap]
    | httpError status => simp [fetchWithCacheAttempt, hmap]
    | thrown => simp [fetchWithCacheAttempt, hmap]
  unfold fetchWithCache
  cases hc : cache cacheKey with
  | none =>
    rw [show (cache cacheKey).map (fun e => e.data) = none from by simp [hc]] at hattempt
    simp [hattempt, hc]
  | some e =>
    by_cases hfresh : now - e.timestamp < cacheDuration
    · simp [hfresh, hc]
    · rw [show (cache cacheKey).map (fun e => e.data) = some e.data from by simp [hc]]
        at hattempt
      simp [hfresh, hattempt, hc]

/-- Witness for `fetchWithCache_serves_last_good`: a thrown fetch against a
very stale cached bitcoin payload serves the cached payload and keeps the cache. -/
theorem fetchWithCache_serves_last_good_witness :
    (fetchWithCache Option.isSome validateData sampleCache "bitcoin" 1000000
      FetchResult.thrown).2 = sampleCache ∧
    (fetchWithCache Option.isSome validateData sampleCache "bitcoin" 1000000
      FetchResult.thrown).1 = (sampleCache "bitcoin").map (fun e => e.data) ∧
    ((fetchWithCache Option.isSome validateData sampleCache "bitcoin" 1000000
      FetchResult.thrown).1 = none ↔ sampleCache "bitcoin" = none) :=
  fetchWithCache_serves_last_good (Option ApiPayload) Option.isSome validateData
    sampleCache "bitcoin" 1000000 FetchResult.thrown rfl
    (by intro e he; simp [sampleCache] at he; simp [← he, btcSamplePayload])

/-! ## Claim C10 — weights invariant -/

/-- `calculateDerivedMetrics` never touches the stored weights. -/
theorem weights_calculateDerivedMetrics (s : RState) (d : Draws) :
    (calculateDerivedMetrics s d).weights = s.weights := by
  unfold calculateDerivedMetrics
  split <;> rfl

/-- `calculateComponentScores` never touches the stored weights. -/
theorem weights_calculateComponentScores (s : RState) (d : Draws) :
    (calculateComponentScores s d).weights = s.weights := rfl

/-- Every weight adjustment of `calculateCompositeScore` adds and subtracts
0.05 in balanced pairs, so the sum of the stored weights is preserved. -/
theorem sumWeights_calculateCompositeScore (s : RState) :
    sumWeights (calculateCompositeScore s).weights = sumWeights s.weights := by
  unfold calculateCompositeScore detectRegimeHMM sumWeights
  dsimp only
  split_ifs <;> dsimp only <;> ring

/-- Claim C10 (confirmed): the five component weights start at
0.30 + 0.25 + 0.20 + 0.15 + 0.10 = 1.0, one metrics-engine pass preserves the
sum of the stored weights, and hence after any number of passes the stored
weights still sum to 1.0 (exact rational arithmetic). -/
theorem weights_sum_invariant :
    sumWeights realtimeDataInit.weights = 1 ∧
    (∀ (s : RState) (d : Draws),
      sumWeights (computeSnapshot s d).weights = sumWeights s.weights) ∧
    (∀ (n : ℕ) (ds : ℕ → Draws) (s : RState), sumWeights s.weights = 1 →
      sumWeights (computeSnapshotIter ds n s).weights = 1) := by
  have hstep : ∀ (s : RState) (d : Draws),
      sumWeights (computeSnapshot s d).weights = sumWeights s.weights := by
    intro s d
    unfold computeSnapshot
    rw [sumWeights_calculateCompositeScore, weights_calculateComponentScores,
      weights_calculateDerivedMetrics]
  refine ⟨by norm_num [realtimeDataInit, sumWeights], hstep, ?_⟩
  intro n
  induction n with
  | zero => intro ds s h; exact h
  | succ m ih =>
    intro ds s h
    show sumWeights (computeSnapshotIter ds m (computeSnapshot s (ds m))).weights = 1
    exact ih ds (computeSnapshot s (ds m)) (by rw [hstep]; exact h)

/-- Witness for `weights_sum_invariant`: three passes from the initial state. -/
theorem weights_sum_invariant_witness :
    sumWeights (computeSnapshotIter (fun _ => zeroDraws) 3 realtimeDataInit).weights = 1 :=
  weights_sum_invariant.2.2 3 (fun _ => zeroDraws) realtimeDataInit
    (weights_sum_invariant.1)

/-! ## Claim C3 — missing sentiment input -/

/-- `calculateDerivedMetrics` never writes the fear/greed index. -/
theorem fearGreed_calculateDerivedMetrics (s : RState) (d : Draws) :
    (calculateDerivedMetrics s d).fearGreedIndex = s.fearGreedIndex := by
  unfold calculateDerivedMetrics
  split <;> rfl

/-- `calculateCompositeScore` never writes the component scores. -/
theorem componentScores_calculateCompositeScore (s : RState) :
    (calculateCompositeScore s).componentScores = s.componentScores := rfl

/-- Claim C3 (counterexample): with the sentiment source never populated
(`fearGreedIndex` is `null`, as in the initial state), the sentiment sub-score
computed by `calculateComponentScores` is 42.5, not the claimed neutral
default 50. -/
theorem sentiment_default_counterexample :
    realtimeDataInit.fearGreedIndex = none ∧
    (calculateComponentScores realtimeDataInit zeroDraws).componentScores.sentiment = 85/2 ∧
    ((85 : ℚ)/2) ≠ 50 := by
  refine ⟨rfl, ?_, by norm_num⟩
  norm_num [calculateComponentScores, jsOr, realtimeDataInit]

/-- Claim C3 (amended): when the cache has never populated the sentiment
source, the metrics engine still produces a snapshot without failing (the
embedding is total), substituting the neutral default 50 for the *sentiment
index*; the resulting sentiment sub-score is
`min(85, max(20, 50 * 0.85)) = 42.5`, not 50. -/
theorem sentiment_default_amended :
    ∀ (s : RState) (d : Draws), s.fearGreedIndex = none →
      (calculateComponentScores s d).componentScores.sentiment = 85/2 ∧
      (computeSnapshot s d).componentScores.sentiment = 85/2 := by
  have hcomp : ∀ (s : RState) (d : Draws), s.fearGreedIndex = none →
      (calculateComponentScores s d).componentScores.sentiment = 85/2 := by
    intro s d h
    norm_num [calculateComponentScores, jsOr, h]
  intro s d h
  refine ⟨hcomp s d h, ?_⟩
  show (calculateCompositeScore
    (calculateComponentScores (calculateDerivedMetrics s d) d)).componentScores.sentiment = 85/2
  rw [componentScores_calculateCompositeScore]
  exact hcomp _ d (by rw [fearGreed_calculateDerivedMetrics, h])

/-- Witness for `sentiment_default_amended` at the initial (never-populated) state. -/
theorem sentiment_default_witness :
    (calculateComponentScores realtimeDataInit zeroDraws).componentScores.sentiment = 85/2 ∧
    (computeSnapshot realtimeDataInit zeroDraws).componentScores.sentiment = 85/2 :=
  sentiment_default_amended realtimeDataInit zeroDraws rfl

/-! ## Claim C1 — snapshot idempotence -/

/-- A second `calculateDerivedMetrics` pass over the snapshot of an unchanged
cache (same draws) is a fixpoint: every derived field is recomputed from the
unchanged `btcPrice`/`btcMarketCap` and draws to the value it already holds. -/
theorem derived_after_snapshot (s : RState) (d : Draws) :
    calculateDerivedMetrics (computeSnapshot s d) d = computeSnapshot s d := by
  unfold computeSnapshot calculateCompositeScore calculateComponentScores detectRegimeHMM
    calculateDerivedMetrics
  by_cases hp : jsTruthy s.btcPrice <;> simp [hp]

/-- A second `calculateComponentScores` pass over the snapshot is likewise a
fixpoint: the component scores are recomputed from the unchanged inputs. -/
theorem components_after_snapshot (s : RState) (d : Draws) :
    calculateComponentScores (computeSnapshot s d) d = computeSnapshot s d := by
  unfold computeSnapshot calculateCompositeScore calculateComponentScores detectRegimeHMM
    calculateDerivedMetrics
  by_cases hp : jsTruthy s.btcPrice <;> simp [hp]

/-- A second `calculateCompositeScore` pass over the snapshot is a fixpoint
*provided* neither dynamic weight adjustment fires: volatility at most 80 and
the detected regime neither EUPHORIA nor DISTRIBUTION. -/
theorem composite_after_snapshot (s : RState) (d : Draws)
    (h1 : jsOr s.volatility90d 65 ≤ 80)
    (h2 : (computeSnapshot s d).regime ≠ "EUPHORIA")
    (h3 : (computeSnapshot s d).regime ≠ "DISTRIBUTION") :
    calculateCompositeScore (computeSnapshot s d) = computeSnapshot s d := by
  have h1' : ¬(80 < jsOr s.volatility90d 65) := not_lt.mpr h1
  unfold computeSnapshot calculateCompositeScore calculateComponentScores detectRegimeHMM
    calculateDerivedMetrics at h2 h3 ⊢
  by_cases hp : jsTruthy s.btcPrice <;>
    (simp [hp] at h2 h3; have hcond := not_or.mpr ⟨h2, h3⟩; simp [hp, h1', hcond])

/-- Claim C1 (counterexample): `computeSnapshot` is not idempotent.  With BTC
at 100000, market cap 1.6965e12, volatility 90 and fear/greed 50 (and the same
all-zero random draws in both calls), the first pass shifts the stored leverage
weight from 0.15 to 0.20 and the second pass shifts it again to 0.25: the
second call does not reproduce the first call's weights. -/
theorem computeSnapshot_not_idempotent_counterexample :
    (computeSnapshot snapshotProbeState zeroDraws).weights.leverage = 0.20 ∧
    (computeSnapshot (computeSnapshot snapshotProbeState zeroDraws)
      zeroDraws).weights.leverage = 0.25 ∧
    (0.20 : ℚ) ≠ 0.25 := by
  refine ⟨?_, ?_, by norm_num⟩
  · norm_num [computeSnapshot, calculateDerivedMetrics, calculateComponentScores,
      calculateCompositeScore, detectRegimeHMM, snapshotProbeState, realtimeDataInit,
      zeroDraws, jsTruthy, jsOr, jsToFixed, jsRound]
    simp
  · norm_num [computeSnapshot, calculateDerivedMetrics, calculateComponentScores,
      calculateCompositeScore, detectRegimeHMM, snapshotProbeState, realtimeDataInit,
      zeroDraws, jsTruthy, jsOr, jsToFixed, jsRound]
    simp
    norm_num

/-- Claim C1 (amended): calling the snapshot computation twice with an
unchanged cache and identical random draws is *not* bit-identical in general,
because `calculateCompositeScore` stores the shifted weights back into the
state (see the counterexample).  When neither dynamic weight adjustment fires —
volatility (defaulted to 65) at most 80 and detected regime neither EUPHORIA
nor DISTRIBUTION — the second call reproduces the first call's output exactly:
same derived values, component scores, weights and composite score. -/
theorem computeSnapshot_idempotent_no_adjust (s : RState) (d : Draws)
    (h1 : jsOr s.volatility90d 65 ≤ 80)
    (h2 : (computeSnapshot s d).regime ≠ "EUPHORIA")
    (h3 : (computeSnapshot s d).regime ≠ "DISTRIBUTION") :
    computeSnapshot (computeSnapshot s d) d = computeSnapshot s d := by
  show calculateCompositeScore (calculateComponentScores
    (calculateDerivedMetrics (computeSnapshot s d) d) d) = computeSnapshot s d
  rw [derived_after_snapshot, components_after_snapshot]
  exact composite_after_snapshot s d h1 h2 h3

/-- Witness for `computeSnapshot_idempotent_no_adjust`: the same populated
cache with volatility 70 (below the threshold; regime EXPANSION). -/
theorem computeSnapshot_idempotent_witness :
    computeSnapshot (computeSnapshot snapshotCalmState zeroDraws) zeroDraws =
      computeSnapshot snapshotCalmState zeroDraws :=
  computeSnapshot_idempotent_no_adjust snapshotCalmState zeroDraws
    (by norm_num [jsOr, snapshotCalmState, realtimeDataInit])
    (by
      norm_num [computeSnapshot, calculateDerivedMetrics, calculateComponentScores,
        calculateCompositeScore, detectRegimeHMM, snapshotCalmState, realtimeDataInit,
        zeroDraws, jsTruthy, jsOr, jsToFixed, jsRound]
      simp)
    (by
      norm_num [computeSnapshot, calculateDerivedMetrics, calculateComponentScores,
        calculateCompositeScore, detectRegimeHMM, snapshotCalmState, realtimeDataInit,
        zeroDraws, jsTruthy, jsOr, jsToFixed, jsRound]
      simp)
